import Mathlib

/-!
Verification of the fuzzy-logic fire-suppression controller
(`fuzzy_logic_controller.py`).  The numeric computations of the controller are
modelled over `ℚ`: every arithmetic operation in the source (additions,
subtractions, multiplications, divisions by constant literals, `max`, `min`,
comparisons, and Python `int()` truncation) is exact on rationals.
-/

namespace FireSuppression

/-- The heat-membership mapping: the dict with keys
`low, medium, high, critical` built by `get_heat_membership`. -/
structure HeatMembership where
  low : ℚ
  medium : ℚ
  high : ℚ
  critical : ℚ
  deriving DecidableEq, Repr

/-- The duration-membership mapping: the dict with keys
`short, medium, long` built by `get_duration_membership`. -/
structure DurationMembership where
  short : ℚ
  medium : ℚ
  long : ℚ
  deriving DecidableEq, Repr

/-- Embedding of `FuzzyLogicController.get_heat_membership`
(fuzzy_logic_controller.py,
lines 11-50): each field mirrors one guarded assignment of the source,
starting from the all-zero dict. -/
def get_heat_membership (temp : ℚ) : HeatMembership where
  low := if temp ≤ 120 then max 0 ((120 - temp) / 50) else 0
  medium :=
    if 100 ≤ temp ∧ temp ≤ 180 then
      (if temp ≤ 140 then (temp - 100) / 40 else (180 - temp) / 40)
    else 0
  high :=
    if 150 ≤ temp ∧ temp ≤ 220 then
      (if temp ≤ 185 then (temp - 150) / 35 else (220 - temp) / 35)
    else 0
  critical := if 200 ≤ temp then min 1 ((temp - 200) / 100) else 0

/-- Embedding of `FuzzyLogicController.get_duration_membership`
(fuzzy_logic_controller.py,
lines 52-83).  The source constant `12.5` is the exact rational `25/2`. -/
def get_duration_membership (duration : ℚ) : DurationMembership where
  short := if duration ≤ 15 then max 0 ((15 - duration) / 15) else 0
  medium :=
    if 10 ≤ duration ∧ duration ≤ 35 then
      (if duration ≤ 45 / 2 then (duration - 10) / (25 / 2)
       else (35 - duration) / (25 / 2))
    else 0
  long := if 25 ≤ duration then min 1 ((duration - 25) / 35) else 0

/-- Heat-category names, used to index rules. -/
inductive HeatCat | low | medium | high | critical
  deriving DecidableEq, Repr

/-- Duration-category names, used to index rules. -/
inductive DurCat | short | medium | long
  deriving DecidableEq, Repr

/-- Dict lookup of a heat category: `heat_memberships[rule.heat]`. -/
def HeatMembership.get (m : HeatMembership) : HeatCat → ℚ
  | .low => m.low
  | .medium => m.medium
  | .high => m.high
  | .critical => m.critical

/-- Dict lookup of a duration category:
`duration_memberships[rule.duration]`. -/
def DurationMembership.get (m : DurationMembership) : DurCat → ℚ
  | .short => m.short
  | .medium => m.medium
  | .long => m.long

/-- The fixed 12-rule table of `get_fuzzy_output`
(fuzzy_logic_controller.py, lines 96-116), in source order. -/
def rules : List (HeatCat × DurCat × ℚ) :=
  [ (.low, .short, 0), (.low, .medium, 0), (.low, .long, 0),
    (.medium, .short, 1/5), (.medium, .medium, 2/5), (.medium, .long, 3/5),
    (.high, .short, 3/5), (.high, .medium, 4/5), (.high, .long, 1),
    (.critical, .short, 4/5), (.critical, .medium, 1), (.critical, .long, 1) ]

/-- Firing strength of one rule: the minimum of the heat membership at the
rule heat category and the duration membership at the rule duration
category. -/
def strength (h : HeatMembership) (d : DurationMembership)
    (r : HeatCat × DurCat × ℚ) : ℚ :=
  min (h.get r.1) (d.get r.2.1)

/-- The accumulated `numerator` after the rule loop of `get_fuzzy_output`. -/
def fuzzyNumerator (h : HeatMembership) (d : DurationMembership) : ℚ :=
  (rules.map (fun r => strength h d r * r.2.2)).sum

/-- The accumulated `denominator` after the rule loop of `get_fuzzy_output`. -/
def fuzzyDenominator (h : HeatMembership) (d : DurationMembership) : ℚ :=
  (rules.map (fun r => strength h d r)).sum

/-- Embedding of `FuzzyLogicController.get_fuzzy_output`
(fuzzy_logic_controller.py,
lines 85-130): weighted-average defuzzification with the `else 0` fallback
for a non-positive denominator. -/
def get_fuzzy_output (h : HeatMembership) (d : DurationMembership) : ℚ :=
  if fuzzyDenominator h d > 0 then fuzzyNumerator h d / fuzzyDenominator h d
  else 0

/-- Embedding of `FuzzyLogicController.get_dominant_membership`
(fuzzy_logic_controller.py,
lines 132-150).  The dict is passed as its ordered item list; the loop is the
fold with state `(max_value, dominant)` starting at `(0, "")`, and the final
`return dominant if dominant else list(memberships.keys())[0]` falls back to
the first declared key. -/
def get_dominant_membership (memberships : List (String × ℚ)) : String :=
  let r := memberships.foldl
    (fun (acc : ℚ × String) kv => if kv.2 > acc.1 then (kv.2, kv.1) else acc)
    (0, "")
  if r.2 = "" then (memberships.headD ("", 0)).1 else r.2

/-- Item list of the heat dict in its declared key order. -/
def heatItems (m : HeatMembership) : List (String × ℚ) :=
  [("low", m.low), ("medium", m.medium), ("high", m.high),
   ("critical", m.critical)]

/-- Item list of the duration dict in its declared key order. -/
def durationItems (m : DurationMembership) : List (String × ℚ) :=
  [("short", m.short), ("medium", m.medium), ("long", m.long)]

/-- Python `str.capitalize()`: first character upper-cased, the rest
lower-cased. -/
def capitalize (s : String) : String :=
  match s.toList with
  | [] => ""
  | c :: cs => String.mk (c.toUpper :: cs.map Char.toLower)

/-- Python `int()` applied to a real number: truncation toward zero. -/
def int_trunc (q : ℚ) : ℤ := if 0 ≤ q then ⌊q⌋ else ⌈q⌉

/-- The result dict of `calculate_system_response`
(fuzzy_logic_controller.py, lines 202-214). -/
structure SystemResponse where
  heat_memberships : HeatMembership
  duration_memberships : DurationMembership
  water_output : ℚ
  dominant_heat : String
  dominant_duration : String
  should_trigger : Bool
  spray_duration : ℤ
  system_status : String
  status_color : String
  water_level : String
  water_pressure : ℤ
  deriving DecidableEq, Repr

/-- Embedding of `FuzzyLogicController.calculate_system_response`
(fuzzy_logic_controller.py, lines 152-214). -/
def calculate_system_response (heat_level duration : ℚ) : SystemResponse :=
  let heat_memberships := get_heat_membership heat_level
  let duration_memberships := get_duration_membership duration
  let water_output := get_fuzzy_output heat_memberships duration_memberships
  let dominant_heat := get_dominant_membership (heatItems heat_memberships)
  let dominant_duration :=
    get_dominant_membership (durationItems duration_memberships)
  let should_trigger := decide (155 ≤ heat_level) && decide (0 < duration)
  let base_duration : ℚ := 5000
  let heat_multiplier := max 1 ((heat_level - 155) / 50)
  let output_multiplier := max (1/2) water_output
  let spray_duration := base_duration * heat_multiplier * output_multiplier
  let status : String × String :=
    if should_trigger then ("ACTIVE", "#ff4444")
    else if 140 ≤ heat_level then ("WARNING", "#ffa726")
    else ("STANDBY", "#4ecdc4")
  let water_level :=
    if water_output > 0 then
      (if water_output < 3/10 then "Low"
       else if water_output < 7/10 then "Medium"
       else "High")
    else "None"
  { heat_memberships := heat_memberships
    duration_memberships := duration_memberships
    water_output := water_output
    dominant_heat := capitalize dominant_heat
    dominant_duration := capitalize dominant_duration
    should_trigger := should_trigger
    spray_duration := int_trunc spray_duration
    system_status := status.1
    status_color := status.2
    water_level := water_level
    water_pressure := int_trunc (water_output * 100) }

/-! ### Shared helper lemmas -/

/-- All four heat membership values are nonnegative. -/
theorem heat_nonneg (t : ℚ) :
    0 ≤ (get_heat_membership t).low ∧ 0 ≤ (get_heat_membership t).medium ∧
    0 ≤ (get_heat_membership t).high ∧ 0 ≤ (get_heat_membership t).critical := by
  unfold get_heat_membership
  refine ⟨?_, ?_, ?_, ?_⟩ <;> simp only <;> split_ifs <;>
    first
      | exact le_max_left 0 _
      | exact le_min (by norm_num) (by linarith)
      | linarith

/-- All three duration membership values are nonnegative. -/
theorem dur_nonneg (d : ℚ) :
    0 ≤ (get_duration_membership d).short ∧
    0 ≤ (get_duration_membership d).medium ∧
    0 ≤ (get_duration_membership d).long := by
  unfold get_duration_membership
  refine ⟨?_, ?_, ?_⟩ <;> simp only <;> split_ifs <;>
    first
      | exact le_max_left 0 _
      | exact le_min (by norm_num) (by linarith)
      | linarith

/-- The denominator of the defuzzifier, written out over the 12 rules. -/
theorem fuzzyDenominator_eq (h : HeatMembership) (d : DurationMembership) :
    fuzzyDenominator h d =
      min h.low d.short + min h.low d.medium + min h.low d.long +
      min h.medium d.short + min h.medium d.medium + min h.medium d.long +
      min h.high d.short + min h.high d.medium + min h.high d.long +
      min h.critical d.short + min h.critical d.medium + min h.critical d.long := by
  simp [fuzzyDenominator, rules, strength, HeatMembership.get,
    DurationMembership.get]
  ring

/-- The numerator of the defuzzifier, written out over the 12 rules. -/
theorem fuzzyNumerator_eq (h : HeatMembership) (d : DurationMembership) :
    fuzzyNumerator h d =
      min h.low d.short * 0 + min h.low d.medium * 0 + min h.low d.long * 0 +
      min h.medium d.short * (1/5) + min h.medium d.medium * (2/5) +
      min h.medium d.long * (3/5) +
      min h.high d.short * (3/5) + min h.high d.medium * (4/5) +
      min h.high d.long * 1 +
      min h.critical d.short * (4/5) + min h.critical d.medium * 1 +
      min h.critical d.long * 1 := by
  simp [fuzzyNumerator, rules, strength, HeatMembership.get,
    DurationMembership.get]
  ring

/-- With nonnegative memberships the defuzzified output lies in `[0,1]`. -/
theorem fuzzy_output_bounds (h : HeatMembership) (d : DurationMembership)
    (hl : 0 ≤ h.low) (hm : 0 ≤ h.medium) (hh : 0 ≤ h.high) (hc : 0 ≤ h.critical)
    (ds : 0 ≤ d.short) (dm : 0 ≤ d.medium) (dl : 0 ≤ d.long) :
    0 ≤ get_fuzzy_output h d ∧ get_fuzzy_output h d ≤ 1 := by
  have s1 : 0 ≤ min h.low d.short := le_min hl ds
  have s2 : 0 ≤ min h.low d.medium := le_min hl dm
  have s3 : 0 ≤ min h.low d.long := le_min hl dl
  have s4 : 0 ≤ min h.medium d.short := le_min hm ds
  have s5 : 0 ≤ min h.medium d.medium := le_min hm dm
  have s6 : 0 ≤ min h.medium d.long := le_min hm dl
  have s7 : 0 ≤ min h.high d.short := le_min hh ds
  have s8 : 0 ≤ min h.high d.medium := le_min hh dm
  have s9 : 0 ≤ min h.high d.long := le_min hh dl
  have s10 : 0 ≤ min h.critical d.short := le_min hc ds
  have s11 : 0 ≤ min h.critical d.medium := le_min hc dm
  have s12 : 0 ≤ min h.critical d.long := le_min hc dl
  have hnum : 0 ≤ fuzzyNumerator h d := by rw [fuzzyNumerator_eq]; linarith
  have hle : fuzzyNumerator h d ≤ fuzzyDenominator h d := by
    rw [fuzzyNumerator_eq, fuzzyDenominator_eq]; linarith
  unfold get_fuzzy_output
  split_ifs with hpos
  · exact ⟨div_nonneg hnum (le_of_lt hpos), (div_le_one hpos).mpr hle⟩
  · norm_num

/-- Some heat membership value is strictly positive at every temperature. -/
theorem heat_pos (t : ℚ) :
    0 < (get_heat_membership t).low ∨ 0 < (get_heat_membership t).medium ∨
    0 < (get_heat_membership t).high ∨ 0 < (get_heat_membership t).critical := by
  unfold get_heat_membership
  simp only
  rcases lt_or_le t 120 with h1 | h1
  · left
    rw [if_pos (le_of_lt h1)]
    exact lt_max_of_lt_right (by linarith)
  · rcases lt_or_le t 180 with h2 | h2
    · right; left
      rw [if_pos ⟨by linarith, le_of_lt h2⟩]
      split_ifs <;> linarith
    · rcases lt_or_le t 220 with h3 | h3
      · right; right; left
        rw [if_pos ⟨by linarith, le_of_lt h3⟩]
        split_ifs <;> linarith
      · right; right; right
        rw [if_pos (by linarith)]
        exact lt_min (by norm_num) (by linarith)

/-- Some duration membership value is strictly positive at every duration. -/
theorem dur_pos (d : ℚ) :
    0 < (get_duration_membership d).short ∨
    0 < (get_duration_membership d).medium ∨
    0 < (get_duration_membership d).long := by
  unfold get_duration_membership
  simp only
  rcases lt_or_le d 15 with h1 | h1
  · left
    rw [if_pos (le_of_lt h1)]
    exact lt_max_of_lt_right (by linarith)
  · rcases lt_or_le d 35 with h2 | h2
    · right; left
      rw [if_pos ⟨by linarith, le_of_lt h2⟩]
      split_ifs <;> linarith
    · right; right
      rw [if_pos (by linarith)]
      exact lt_min (by norm_num) (by linarith)

/-- With nonnegative memberships, one positive heat value and one positive
duration value force a strictly positive defuzzifier denominator. -/
theorem fuzzyDenominator_pos (h : HeatMembership) (d : DurationMembership)
    (hl : 0 ≤ h.low) (hm : 0 ≤ h.medium) (hh : 0 ≤ h.high) (hc : 0 ≤ h.critical)
    (ds : 0 ≤ d.short) (dm : 0 ≤ d.medium) (dl : 0 ≤ d.long)
    (hp : 0 < h.low ∨ 0 < h.medium ∨ 0 < h.high ∨ 0 < h.critical)
    (dp : 0 < d.short ∨ 0 < d.medium ∨ 0 < d.long) :
    0 < fuzzyDenominator h d := by
  have s1 : 0 ≤ min h.low d.short := le_min hl ds
  have s2 : 0 ≤ min h.low d.medium := le_min hl dm
  have s3 : 0 ≤ min h.low d.long := le_min hl dl
  have s4 : 0 ≤ min h.medium d.short := le_min hm ds
  have s5 : 0 ≤ min h.medium d.medium := le_min hm dm
  have s6 : 0 ≤ min h.medium d.long := le_min hm dl
  have s7 : 0 ≤ min h.high d.short := le_min hh ds
  have s8 : 0 ≤ min h.high d.medium := le_min hh dm
  have s9 : 0 ≤ min h.high d.long := le_min hh dl
  have s10 : 0 ≤ min h.critical d.short := le_min hc ds
  have s11 : 0 ≤ min h.critical d.medium := le_min hc dm
  have s12 : 0 ≤ min h.critical d.long := le_min hc dl
  rw [fuzzyDenominator_eq]
  rcases hp with hx | hx | hx | hx <;> rcases dp with hy | hy | hy <;>
    (have hmin := lt_min hx hy; linarith)

/-! ### Projection lemmas for `calculate_system_response` -/

/-- The `water_output` field of the response. -/
theorem csr_water_output (t d : ℚ) :
    (calculate_system_response t d).water_output =
      get_fuzzy_output (get_heat_membership t) (get_duration_membership d) :=
  rfl

/-- The `should_trigger` field of the response. -/
theorem csr_trigger (t d : ℚ) :
    (calculate_system_response t d).should_trigger =
      (decide (155 ≤ t) && decide (0 < d)) :=
  rfl

/-- The `spray_duration` field of the response. -/
theorem csr_spray (t d : ℚ) :
    (calculate_system_response t d).spray_duration =
      int_trunc (5000 * max 1 ((t - 155) / 50) *
        max (1/2) (calculate_system_response t d).water_output) :=
  rfl

/-- status/color pair of the response. -/
theorem csr_status_pair (t d : ℚ) :
    ((calculate_system_response t d).system_status,
     (calculate_system_response t d).status_color) =
      (if (decide (155 ≤ t) && decide (0 < d) : Bool) then ("ACTIVE", "#ff4444")
       else if 140 ≤ t then ("WARNING", "#ffa726")
       else ("STANDBY", "#4ecdc4")) :=
  rfl

/-- The `water_level` field of the response. -/
theorem csr_water_level (t d : ℚ) :
    (calculate_system_response t d).water_level =
      (if (calculate_system_response t d).water_output > 0 then
        (if (calculate_system_response t d).water_output < 3/10 then "Low"
         else if (calculate_system_response t d).water_output < 7/10 then
           "Medium"
         else "High")
       else "None") :=
  rfl

/-- The `water_pressure` field of the response. -/
theorem csr_pressure (t d : ℚ) :
    (calculate_system_response t d).water_pressure =
      int_trunc ((calculate_system_response t d).water_output * 100) :=
  rfl

/-! ### Claim theorems -/

/-- C1 (counterexample): the claim that every membership value lies in
`[0,1]` fails: at temperature `0` the `low` heat membership is `12/5 > 1`,
and at duration `-15` the `short` duration membership is `2 > 1` (the source
applies no upper clamp on these two rising-to-the-left ramps). -/
theorem C1_counterexample :
    (get_heat_membership 0).low = 12/5 ∧ ¬ (get_heat_membership 0).low ≤ 1 ∧
    (get_duration_membership (-15)).short = 2 ∧
    ¬ (get_duration_membership (-15)).short ≤ 1 := by
  norm_num [get_heat_membership, get_duration_membership]

/-- C1 (amended): every membership value of both mappings is nonnegative;
`medium`, `high`, `critical` heat values and `medium`, `long` duration values
always lie in `[0,1]`; `low` is `≤ 1` exactly when the temperature is at
least 70 (for `t < 70` it strictly exceeds `1`), and `short` is `≤ 1`
exactly when the duration is nonnegative (for `d < 0` it strictly exceeds
`1`). -/
theorem C1_amended (t d : ℚ) :
    (0 ≤ (get_heat_membership t).low ∧ 0 ≤ (get_heat_membership t).medium ∧
     0 ≤ (get_heat_membership t).high ∧ 0 ≤ (get_heat_membership t).critical) ∧
    ((get_heat_membership t).medium ≤ 1 ∧ (get_heat_membership t).high ≤ 1 ∧
     (get_heat_membership t).critical ≤ 1) ∧
    (70 ≤ t → (get_heat_membership t).low ≤ 1) ∧
    (t < 70 → 1 < (get_heat_membership t).low) ∧
    (0 ≤ (get_duration_membership d).short ∧
     0 ≤ (get_duration_membership d).medium ∧
     0 ≤ (get_duration_membership d).long) ∧
    ((get_duration_membership d).medium ≤ 1 ∧
     (get_duration_membership d).long ≤ 1) ∧
    (0 ≤ d → (get_duration_membership d).short ≤ 1) ∧
    (d < 0 → 1 < (get_duration_membership d).short) := by
  refine ⟨heat_nonneg t, ?_, ?_, ?_, dur_nonneg d, ?_, ?_, ?_⟩
  · unfold get_heat_membership
    refine ⟨?_, ?_, ?_⟩ <;> simp only <;> split_ifs <;>
      first
        | exact min_le_left 1 _
        | linarith
  · intro ht
    unfold get_heat_membership
    simp only
    split_ifs
    · exact max_le (by norm_num) (by linarith)
    · norm_num
  · intro ht
    unfold get_heat_membership
    simp only
    rw [if_pos (by linarith)]
    exact lt_max_of_lt_right (by linarith)
  · unfold get_duration_membership
    refine ⟨?_, ?_⟩ <;> simp only <;> split_ifs <;>
      first
        | exact min_le_left 1 _
        | linarith
  · intro hd
    unfold get_duration_membership
    simp only
    split_ifs
    · exact max_le (by norm_num) (by linarith)
    · norm_num
  · intro hd
    unfold get_duration_membership
    simp only
    rw [if_pos (by linarith)]
    exact lt_max_of_lt_right (by linarith)

/-- Witness for C1 (amended), exercising each hypothesis: the forward
directions at `t = 100`, `d = 5` and the converse directions at `t = 0`,
`d = -15`. -/
theorem C1_amended_witness :
    (get_heat_membership 100).low ≤ 1 ∧
    1 < (get_heat_membership 0).low ∧
    (get_duration_membership 5).short ≤ 1 ∧
    1 < (get_duration_membership (-15)).short :=
  ⟨(C1_amended 100 5).2.2.1 (by norm_num),
   (C1_amended 0 (-15)).2.2.2.1 (by norm_num),
   (C1_amended 100 5).2.2.2.2.2.2.1 (by norm_num),
   (C1_amended 0 (-15)).2.2.2.2.2.2.2 (by norm_num)⟩

/-- C2 (counterexample): at `(250, 30)` the dominant duration category is
`medium` (the response field is the capitalized `"Medium"`), not `long`: the
duration-30 memberships are `short = 0`, `medium = 2/5`, `long = 1/7`, and
`2/5 > 1/7`. -/
theorem C2_counterexample :
    (calculate_system_response 250 30).dominant_duration = "Medium" ∧
    (calculate_system_response 250 30).dominant_duration ≠ "Long" ∧
    (calculate_system_response 250 30).dominant_duration ≠ "long" ∧
    (get_duration_membership 30).medium = 2/5 ∧
    (get_duration_membership 30).long = 1/7 := by
  norm_num [calculate_system_response, get_heat_membership,
    get_duration_membership, get_fuzzy_output, fuzzyNumerator,
    fuzzyDenominator, rules, strength, HeatMembership.get,
    DurationMembership.get, get_dominant_membership, heatItems, durationItems,
    capitalize, String.toList, int_trunc, min_def, max_def, List.foldl]
  simp

/-- C2 (amended): `calculate_system_response 250 30` has dominant heat
category `critical` (`"Critical"`), dominant duration category `medium`
(`"Medium"`), `water_output = 1`, `should_trigger = true`,
`system_status = "ACTIVE"`, `water_level = "High"`, `water_pressure = 100`
and `spray_duration = 9500` ms. -/
theorem C2_amended :
    (calculate_system_response 250 30).dominant_heat = "Critical" ∧
    (calculate_system_response 250 30).dominant_duration = "Medium" ∧
    (calculate_system_response 250 30).water_output = 1 ∧
    (calculate_system_response 250 30).should_trigger = true ∧
    (calculate_system_response 250 30).system_status = "ACTIVE" ∧
    (calculate_system_response 250 30).water_level = "High" ∧
    (calculate_system_response 250 30).water_pressure = 100 ∧
    (calculate_system_response 250 30).spray_duration = 9500 := by
  norm_num [calculate_system_response, get_heat_membership,
    get_duration_membership, get_fuzzy_output, fuzzyNumerator,
    fuzzyDenominator, rules, strength, HeatMembership.get,
    DurationMembership.get, get_dominant_membership, heatItems, durationItems,
    capitalize, String.toList, int_trunc, min_def, max_def, List.foldl]
  simp

/-- C4 (counterexample): the claim that `low` is `1.0` at every temperature
`≤ 70` fails: at temperature `20 ≤ 70` the `low` membership is `2`, not
`1`. -/
theorem C4_counterexample :
    (20:ℚ) ≤ 70 ∧ (get_heat_membership 20).low = 2 ∧ (2:ℚ) ≠ 1 := by
  norm_num [get_heat_membership]

/-- C4 (amended): `low` equals `max 0 ((120 − t)/50)` for `t ≤ 120` and `0`
for `t > 120` — hence equals `1` at `t = 70` but exceeds `1` for `t < 70`;
`medium` is the triangular curve on `[100,180]` with peak `1` at `t = 140`;
`critical` is `0` below `200` and `min 1 ((t − 200)/100)` from `200` on,
clamped at `1` beyond `300`. -/
theorem C4_amended (t : ℚ) :
    (t ≤ 120 → (get_heat_membership t).low = max 0 ((120 - t) / 50)) ∧
    (120 < t → (get_heat_membership t).low = 0) ∧
    (t = 70 → (get_heat_membership t).low = 1) ∧
    (t < 70 → 1 < (get_heat_membership t).low) ∧
    (100 ≤ t → t ≤ 140 → (get_heat_membership t).medium = (t - 100) / 40) ∧
    (140 ≤ t → t ≤ 180 → (get_heat_membership t).medium = (180 - t) / 40) ∧
    (t < 100 → (get_heat_membership t).medium = 0) ∧
    (180 < t → (get_heat_membership t).medium = 0) ∧
    (t = 140 → (get_heat_membership t).medium = 1) ∧
    (t < 200 → (get_heat_membership t).critical = 0) ∧
    (200 ≤ t → (get_heat_membership t).critical = min 1 ((t - 200) / 100)) ∧
    (300 ≤ t → (get_heat_membership t).critical = 1) := by
  unfold get_heat_membership
  simp only
  refine ⟨?_, ?_, ?_, ?_, ?_, ?_, ?_, ?_, ?_, ?_, ?_, ?_⟩
  · intro h; rw [if_pos h]
  · intro h; rw [if_neg (not_le.mpr h)]
  · intro h
    subst h
    rw [if_pos (by norm_num), max_eq_right (by norm_num)]
    norm_num
  · intro h
    rw [if_pos (by linarith)]
    exact lt_max_of_lt_right (by linarith)
  · intro h1 h2; rw [if_pos ⟨h1, by linarith⟩, if_pos h2]
  · intro h1 h2
    rw [if_pos ⟨by linarith, h2⟩]
    split_ifs with h3
    · have ht : t = 140 := le_antisymm h3 h1
      subst ht; norm_num
    · rfl
  · intro h; rw [if_neg (fun hc => absurd hc.1 (not_le.mpr h))]
  · intro h; rw [if_neg (fun hc => absurd hc.2 (not_le.mpr h))]
  · intro h; subst h; norm_num
  · intro h; rw [if_neg (not_le.mpr h)]
  · intro h; rw [if_pos h]
  · intro h
    rw [if_pos (by linarith), min_eq_left (by linarith)]

/-- Witness for C4 (amended) at `t = 250`. -/
theorem C4_amended_witness :
    200 ≤ (250:ℚ) ∧
    (get_heat_membership 250).critical = min 1 (((250:ℚ) - 200) / 100) :=
  ⟨by norm_num, (C4_amended 250).2.2.2.2.2.2.2.2.2.2.1 (by norm_num)⟩

/-- C3: with nonnegative membership maps, `get_fuzzy_output` is the weighted
average of the 12 fixed rule outputs (low→0,0,0; medium→0.2,0.4,0.6;
high→0.6,0.8,1.0; critical→0.8,1.0,1.0 over short,medium,long) weighted by
firing strengths `min(heat, duration)`, with `0` when the denominator is not
strictly positive, and the result always lies in `[0,1]`. -/
theorem C3_fuzzy_output (h : HeatMembership) (d : DurationMembership)
    (hl : 0 ≤ h.low) (hm : 0 ≤ h.medium) (hh : 0 ≤ h.high)
    (hc : 0 ≤ h.critical)
    (ds : 0 ≤ d.short) (dm : 0 ≤ d.medium) (dl : 0 ≤ d.long) :
    (get_fuzzy_output h d =
      if 0 < min h.low d.short + min h.low d.medium + min h.low d.long +
          min h.medium d.short + min h.medium d.medium + min h.medium d.long +
          min h.high d.short + min h.high d.medium + min h.high d.long +
          min h.critical d.short + min h.critical d.medium +
          min h.critical d.long then
        (min h.low d.short * 0 + min h.low d.medium * 0 +
         min h.low d.long * 0 +
         min h.medium d.short * (1/5) + min h.medium d.medium * (2/5) +
         min h.medium d.long * (3/5) +
         min h.high d.short * (3/5) + min h.high d.medium * (4/5) +
         min h.high d.long * 1 +
         min h.critical d.short * (4/5) + min h.critical d.medium * 1 +
         min h.critical d.long * 1) /
        (min h.low d.short + min h.low d.medium + min h.low d.long +
         min h.medium d.short + min h.medium d.medium + min h.medium d.long +
         min h.high d.short + min h.high d.medium + min h.high d.long +
         min h.critical d.short + min h.critical d.medium +
         min h.critical d.long)
      else 0) ∧
    0 ≤ get_fuzzy_output h d ∧ get_fuzzy_output h d ≤ 1 := by
  refine ⟨?_, fuzzy_output_bounds h d hl hm hh hc ds dm dl⟩
  unfold get_fuzzy_output
  rw [fuzzyNumerator_eq, fuzzyDenominator_eq]

/-- Witness for C3 at the all-ones heat map and all-ones duration map. -/
theorem C3_fuzzy_output_witness :
    0 ≤ get_fuzzy_output ⟨1, 1, 1, 1⟩ ⟨1, 1, 1⟩ ∧
    get_fuzzy_output ⟨1, 1, 1, 1⟩ ⟨1, 1, 1⟩ ≤ 1 :=
  (C3_fuzzy_output ⟨1, 1, 1, 1⟩ ⟨1, 1, 1⟩ (by norm_num) (by norm_num)
    (by norm_num) (by norm_num) (by norm_num) (by norm_num) (by norm_num)).2

/-- C5: the trigger decision is `temperature ≥ 155 AND duration > 0`; in
particular a zero duration never triggers, however high the temperature. -/
theorem C5_trigger (t d : ℚ) :
    ((calculate_system_response t d).should_trigger = true ↔
      (155 ≤ t ∧ 0 < d)) ∧
    (calculate_system_response t 0).should_trigger = false := by
  rw [csr_trigger, csr_trigger]
  simp

/-- Witness for C5 at `(1000, 0)`: even at temperature 1000 a zero duration
does not trigger. -/
theorem C5_trigger_witness :
    (calculate_system_response 1000 0).should_trigger = false :=
  (C5_trigger 1000 0).2

/-- C6: `system_status` and `status_color` follow the priority cascade
ACTIVE (triggered) → WARNING (temperature ≥ 140) → STANDBY, with the fixed
colors `#ff4444`, `#ffa726`, `#4ecdc4`. -/
theorem C6_status (t d : ℚ) :
    ((calculate_system_response t d).system_status,
     (calculate_system_response t d).status_color) =
      (if (calculate_system_response t d).should_trigger then
        ("ACTIVE", "#ff4444")
       else if 140 ≤ t then ("WARNING", "#ffa726")
       else ("STANDBY", "#4ecdc4")) := by
  rw [csr_status_pair, csr_trigger]

/-- Witness for C6 at `(145, 0)`: not triggered, temperature ≥ 140, so the
status is WARNING with color `#ffa726`. -/
theorem C6_status_witness :
    ((calculate_system_response 145 0).system_status,
     (calculate_system_response 145 0).status_color) =
      ("WARNING", "#ffa726") := by
  have h := C6_status 145 0
  rw [csr_trigger] at h
  norm_num at h
  exact Prod.ext h.1 h.2

/-- C7: `spray_duration` is the truncation to an integer of
`5000 * max(1, (t − 155)/50) * max(0.5, water_output)`, and it is never
negative. -/
theorem C7_spray (t d : ℚ) :
    (calculate_system_response t d).spray_duration =
      int_trunc (5000 * max 1 ((t - 155) / 50) *
        max (1/2) (calculate_system_response t d).water_output) ∧
    0 ≤ (calculate_system_response t d).spray_duration := by
  refine ⟨csr_spray t d, ?_⟩
  rw [csr_spray]
  have ha : (1:ℚ) ≤ max 1 ((t - 155) / 50) := le_max_left _ _
  have hb : (1/2:ℚ) ≤ max (1/2) (calculate_system_response t d).water_output :=
    le_max_left _ _
  have hq : (0:ℚ) ≤ 5000 * max 1 ((t - 155) / 50) *
      max (1/2) (calculate_system_response t d).water_output := by nlinarith
  unfold int_trunc
  rw [if_pos hq]
  exact Int.floor_nonneg.mpr hq

/-- The water output of every response lies in `[0,1]`. -/
theorem csr_water_output_bounds (t d : ℚ) :
    0 ≤ (calculate_system_response t d).water_output ∧
    (calculate_system_response t d).water_output ≤ 1 := by
  rw [csr_water_output]
  obtain ⟨h1, h2, h3, h4⟩ := heat_nonneg t
  obtain ⟨g1, g2, g3⟩ := dur_nonneg d
  exact fuzzy_output_bounds _ _ h1 h2 h3 h4 g1 g2 g3

/-- C8: the qualitative water level partitions the output range
(`None` at 0, `Low` on `(0, 0.3)`, `Medium` on `[0.3, 0.7)`, `High` on
`[0.7, ∞)`), and the water pressure is `int(water_output * 100)`, always in
`[0, 100]`. -/
theorem C8_water (t d : ℚ) :
    ((calculate_system_response t d).water_level = "None" ↔
      (calculate_system_response t d).water_output = 0) ∧
    ((calculate_system_response t d).water_level = "Low" ↔
      (0 < (calculate_system_response t d).water_output ∧
       (calculate_system_response t d).water_output < 3/10)) ∧
    ((calculate_system_response t d).water_level = "Medium" ↔
      (3/10 ≤ (calculate_system_response t d).water_output ∧
       (calculate_system_response t d).water_output < 7/10)) ∧
    ((calculate_system_response t d).water_level = "High" ↔
      7/10 ≤ (calculate_system_response t d).water_output) ∧
    (calculate_system_response t d).water_pressure =
      int_trunc ((calculate_system_response t d).water_output * 100) ∧
    0 ≤ (calculate_system_response t d).water_pressure ∧
    (calculate_system_response t d).water_pressure ≤ 100 := by
  obtain ⟨hw0, hw1⟩ := csr_water_output_bounds t d
  have hpr : 0 ≤ (calculate_system_response t d).water_pressure ∧
      (calculate_system_response t d).water_pressure ≤ 100 := by
    rw [csr_pressure]
    have h0 : (0:ℚ) ≤ (calculate_system_response t d).water_output * 100 := by
      nlinarith
    have h100 : (calculate_system_response t d).water_output * 100 ≤ 100 := by
      nlinarith
    unfold int_trunc
    rw [if_pos h0]
    refine ⟨Int.floor_nonneg.mpr h0, ?_⟩
    have hfl := Int.floor_le_floor h100
    simpa using hfl
  refine ⟨?_, ?_, ?_, ?_, csr_pressure t d, hpr.1, hpr.2⟩ <;>
    rw [csr_water_level] <;> split_ifs with h1 h2 h3 <;>
    first
      | exact iff_of_true rfl (by constructor <;> linarith)
      | exact iff_of_true rfl (by linarith)
      | (refine iff_of_false (by simp) fun hc => ?_
         first
           | (obtain ⟨hca, hcb⟩ := hc; linarith)
           | linarith)

/-- Witness for C8 at `(250, 30)`. -/
theorem C8_water_witness :
    (calculate_system_response 250 30).water_level = "High" ↔
      7/10 ≤ (calculate_system_response 250 30).water_output :=
  (C8_water 250 30).2.2.2.1

/-- C9: `get_dominant_membership` returns the first key, in declared order
(heat: low, medium, high, critical; duration: short, medium, long), whose
value is at least every later value — i.e. the strictly greatest value wins,
ties keep the first-seen maximum, and when all values are zero the first
declared key is returned. -/
theorem C9_dominant (m : HeatMembership) (n : DurationMembership)
    (h1 : 0 ≤ m.low) (h2 : 0 ≤ m.medium) (h3 : 0 ≤ m.high)
    (h4 : 0 ≤ m.critical)
    (g1 : 0 ≤ n.short) (g2 : 0 ≤ n.medium) (g3 : 0 ≤ n.long) :
    get_dominant_membership (heatItems m) =
      (if m.medium ≤ m.low ∧ m.high ≤ m.low ∧ m.critical ≤ m.low then "low"
       else if m.high ≤ m.medium ∧ m.critical ≤ m.medium then "medium"
       else if m.critical ≤ m.high then "high"
       else "critical") ∧
    get_dominant_membership (durationItems n) =
      (if n.medium ≤ n.short ∧ n.long ≤ n.short then "short"
       else if n.long ≤ n.medium then "medium"
       else "long") := by
  constructor
  · unfold get_dominant_membership heatItems
    simp only [List.foldl, List.headD]
    by_cases hA : m.medium ≤ m.low ∧ m.high ≤ m.low ∧ m.critical ≤ m.low
    · rw [if_pos hA]
      obtain ⟨a1, a2, a3⟩ := hA
      rcases lt_or_le 0 m.low with c | c
      · simp [c, not_lt.mpr a1, not_lt.mpr a2, not_lt.mpr a3]
      · have elow : m.low = 0 := le_antisymm c h1
        have emed : m.medium = 0 := le_antisymm (elow ▸ a1) h2
        have ehigh : m.high = 0 := le_antisymm (elow ▸ a2) h3
        have ecrit : m.critical = 0 := le_antisymm (elow ▸ a3) h4
        simp [elow, emed, ehigh, ecrit]
    · rw [if_neg hA]
      by_cases hB : m.high ≤ m.medium ∧ m.critical ≤ m.medium
      · rw [if_pos hB]
        obtain ⟨b1, b2⟩ := hB
        have cmed : m.low < m.medium := by
          by_contra hcon
          push_neg at hcon
          exact hA ⟨hcon, le_trans b1 hcon, le_trans b2 hcon⟩
        rcases lt_or_le 0 m.low with c | c
        · simp [c, cmed, not_lt.mpr b1, not_lt.mpr b2]
        · have cmed0 : 0 < m.medium := lt_of_le_of_lt h1 cmed
          simp [not_lt.mpr c, cmed0, not_lt.mpr b1, not_lt.mpr b2]
      · rw [if_neg hB]
        by_cases hC : m.critical ≤ m.high
        · rw [if_pos hC]
          have cmh : m.medium < m.high := by
            by_contra hcon
            push_neg at hcon
            exact hB ⟨hcon, le_trans hC hcon⟩
          have clh : m.low < m.high := by
            by_contra hcon
            push_neg at hcon
            exact hA ⟨le_of_lt (lt_of_lt_of_le cmh hcon), hcon,
              le_trans hC hcon⟩
          rcases lt_or_le 0 m.low with c | c
          · rcases lt_or_le m.low m.medium with c2 | c2
            · simp [c, c2, cmh, not_lt.mpr hC]
            · simp [c, not_lt.mpr c2, clh, not_lt.mpr hC]
          · rcases lt_or_le 0 m.medium with c2 | c2
            · simp [not_lt.mpr c, c2, cmh, not_lt.mpr hC]
            · have chigh0 : 0 < m.high := lt_of_le_of_lt h2 cmh
              simp [not_lt.mpr c, not_lt.mpr c2, chigh0, not_lt.mpr hC]
        · rw [if_neg hC]
          have chc : m.high < m.critical := not_le.mp hC
          have ccm : m.medium < m.critical := by
            by_contra hcon
            push_neg at hcon
            exact hB ⟨le_of_lt (lt_of_lt_of_le chc hcon), hcon⟩
          have ccl : m.low < m.critical := by
            by_contra hcon
            push_neg at hcon
            exact hA ⟨le_of_lt (lt_of_lt_of_le ccm hcon),
              le_of_lt (lt_of_lt_of_le chc hcon), hcon⟩
          rcases lt_or_le 0 m.low with c | c
          · rcases lt_or_le m.low m.medium with c2 | c2
            · rcases lt_or_le m.medium m.high with c3 | c3
              · simp [c, c2, c3, chc]
              · simp [c, c2, not_lt.mpr c3, ccm]
            · rcases lt_or_le m.low m.high with c3 | c3
              · simp [c, not_lt.mpr c2, c3, chc]
              · simp [c, not_lt.mpr c2, not_lt.mpr c3, ccl]
          · rcases lt_or_le 0 m.medium with c2 | c2
            · rcases lt_or_le m.medium m.high with c3 | c3
              · simp [not_lt.mpr c, c2, c3, chc]
              · simp [not_lt.mpr c, c2, not_lt.mpr c3, ccm]
            · rcases lt_or_le 0 m.high with c3 | c3
              · simp [not_lt.mpr c, not_lt.mpr c2, c3, chc]
              · have ccrit0 : 0 < m.critical := lt_of_le_of_lt h3 chc
                simp [not_lt.mpr c, not_lt.mpr c2, not_lt.mpr c3, ccrit0]
  · unfold get_dominant_membership durationItems
    simp only [List.foldl, List.headD]
    by_cases hA : n.medium ≤ n.short ∧ n.long ≤ n.short
    · rw [if_pos hA]
      obtain ⟨a1, a2⟩ := hA
      rcases lt_or_le 0 n.short with c | c
      · simp [c, not_lt.mpr a1, not_lt.mpr a2]
      · have es : n.short = 0 := le_antisymm c g1
        have em : n.medium = 0 := le_antisymm (es ▸ a1) g2
        have el : n.long = 0 := le_antisymm (es ▸ a2) g3
        simp [es, em, el]
    · rw [if_neg hA]
      by_cases hB : n.long ≤ n.medium
      · rw [if_pos hB]
        have cms : n.short < n.medium := by
          by_contra hcon
          push_neg at hcon
          exact hA ⟨hcon, le_trans hB hcon⟩
        rcases lt_or_le 0 n.short with c | c
        · simp [c, cms, not_lt.mpr hB]
        · have cm0 : 0 < n.medium := lt_of_le_of_lt g1 cms
          simp [not_lt.mpr c, cm0, not_lt.mpr hB]
      · rw [if_neg hB]
        have cml : n.medium < n.long := not_le.mp hB
        have csl : n.short < n.long := by
          by_contra hcon
          push_neg at hcon
          exact hA ⟨le_of_lt (lt_of_lt_of_le cml hcon), hcon⟩
        rcases lt_or_le 0 n.short with c | c
        · rcases lt_or_le n.short n.medium with c2 | c2
          · simp [c, c2, cml]
          · simp [c, not_lt.mpr c2, csl]
        · rcases lt_or_le 0 n.medium with c2 | c2
          · simp [not_lt.mpr c, c2, cml]
          · have cl0 : 0 < n.long := lt_of_le_of_lt g2 cml
            simp [not_lt.mpr c, not_lt.mpr c2, cl0]

/-- Witness for C9 at the all-zero maps: both fall back to the first
declared key. -/
theorem C9_dominant_witness :
    get_dominant_membership (heatItems ⟨0, 0, 0, 0⟩) = "low" ∧
    get_dominant_membership (durationItems ⟨0, 0, 0⟩) = "short" := by
  have h := C9_dominant ⟨0, 0, 0, 0⟩ ⟨0, 0, 0⟩ (by norm_num) (by norm_num)
    (by norm_num) (by norm_num) (by norm_num) (by norm_num) (by norm_num)
  simpa using h

/-- C10: at every temperature some heat membership is strictly positive and
at every duration some duration membership is strictly positive, so the
defuzzification denominator reached through `calculate_system_response` is
strictly positive and the water output always takes the division branch —
the `else 0` fallback of `get_fuzzy_output` is unreachable from the public
entry point. -/
theorem C10_denominator_pos (t d : ℚ) :
    (0 < (get_heat_membership t).low ∨ 0 < (get_heat_membership t).medium ∨
     0 < (get_heat_membership t).high ∨
     0 < (get_heat_membership t).critical) ∧
    (0 < (get_duration_membership d).short ∨
     0 < (get_duration_membership d).medium ∨
     0 < (get_duration_membership d).long) ∧
    0 < fuzzyDenominator (get_heat_membership t) (get_duration_membership d) ∧
    (calculate_system_response t d).water_output =
      fuzzyNumerator (get_heat_membership t) (get_duration_membership d) /
        fuzzyDenominator (get_heat_membership t) (get_duration_membership d)
    := by
  obtain ⟨a1, a2, a3, a4⟩ := heat_nonneg t
  obtain ⟨b1, b2, b3⟩ := dur_nonneg d
  have hp := heat_pos t
  have dp := dur_pos d
  have hden := fuzzyDenominator_pos _ _ a1 a2 a3 a4 b1 b2 b3 hp dp
  refine ⟨hp, dp, hden, ?_⟩
  rw [csr_water_output]
  unfold get_fuzzy_output
  rw [if_pos hden]

end FireSuppression
